import Mathlib

/-
Shallow embedding of the OVF 2.0 reader and HDF5 aggregation pipeline of
mumax-oommf-tools (src/mumax_oommf_tools/io/ovf2_reader.py,
src/mumax_oommf_tools/io/hdf5_store.py, src/mumax_oommf_tools/configs/ovf2.py).

File contents (Python bytes) are modelled as `List Char`, one Char per byte;
all inputs of interest are ASCII, so bytes.decode() is the identity in the
model.  Python exceptions are modelled by an explicit error type returned in
`Except`.  Numeric header values are modelled exactly: int as Int, float as
the exact rational value of the parsed literal (IEEE rounding of the Python
float is not modelled; no claim below depends on rounding).
-/

deriving instance DecidableEq for Except

namespace Mumax

/-- Python whitespace characters recognised by str.strip() / bytes.strip()
(ASCII subset; the inputs of interest are ASCII). -/
def pyWs : List Char := [' ', '\x09', '\x0a', '\x0d', '\x0b', '\x0c']

/-- Drop the characters of `cs` from both ends of `s`; models Python
str.strip(chars). -/
def stripChars (cs : List Char) (s : List Char) : List Char :=
  ((s.dropWhile (fun c => cs.contains c)).reverse.dropWhile (fun c => cs.contains c)).reverse

/-- Python str.strip() / bytes.strip() with no argument: strip whitespace. -/
def stripWs (s : List Char) : List Char := stripChars pyWs s

/-- The key strip in extract_metadata: Python key.strip("# ") strips only the
two characters # and space (not tabs or other whitespace). -/
def stripHashSpace (s : List Char) : List Char := stripChars ['#', ' '] s

/-- Python bytes.find(pat): index of the first occurrence, none when absent
(Python returns -1). -/
def findSub : List Char → List Char → Option Nat
  | [], pat => if pat.isEmpty then some 0 else none
  | c :: rest, pat =>
    if pat.isPrefixOf (c :: rest) then some 0
    else (findSub rest pat).map (· + 1)

/-- Python bytes.find(ch, start) for a single character and nonnegative start. -/
def findCharFrom (s : List Char) (c : Char) (start : Nat) : Option Nat :=
  (findSub (s.drop start) [c]).map (· + start)

/-- Split on a newline character, keeping empty pieces; auxiliary for
`splitlines`. -/
def splitOnNl : List Char → List (List Char)
  | [] => [[]]
  | c :: rest =>
    if c = '\x0a' then [] :: splitOnNl rest
    else
      match splitOnNl rest with
      | [] => [[c]]
      | p :: ps => (c :: p) :: ps

/-- Python str.splitlines() restricted to newline line breaks (OVF files use
plain newlines; the \x0d variants of Python are not modelled). -/
def splitlines (s : List Char) : List (List Char) :=
  if s.isEmpty then []
  else
    let ps := splitOnNl s
    if s.getLast? = some '\x0a' then ps.dropLast else ps

/-- Split a line at its last colon; models the ":" in line test followed by
line.rsplit(":", 1).  none when the line has no colon. -/
def rsplitColon (l : List Char) : Option (List Char × List Char) :=
  let afterRev := (l.reverse).takeWhile (fun c => c ≠ ':')
  match (l.reverse).dropWhile (fun c => c ≠ ':') with
  | _ :: beforeRev => some (beforeRev.reverse, afterRev.reverse)
  | [] => none

/-- Decimal digit run to a natural number. -/
def digitsToNat (ds : List Char) : Nat :=
  ds.foldl (fun acc c => acc * 10 + (c.toNat - 48)) 0

/-- Parse a nonempty all-digit string. -/
def parseNatDigits? (ds : List Char) : Option Nat :=
  if ds.isEmpty then none
  else if ds.all (fun c => c.isDigit) then some (digitsToNat ds) else none

/-- Signed digit string, no surrounding whitespace. -/
def parseIntCore? : List Char → Option Int
  | '+' :: ds => (parseNatDigits? ds).map Int.ofNat
  | '-' :: ds => (parseNatDigits? ds).map (fun n => -(n : Int))
  | ds => (parseNatDigits? ds).map Int.ofNat

/-- Python int(str): surrounding whitespace allowed, then an optional sign and
digits.  (Underscore digit separators and non-ASCII digits are not
modelled.) -/
def parseInt? (s : List Char) : Option Int := parseIntCore? (stripWs s)

/-- Mantissa of a Python float literal: digits [ . digits ] or . digits;
returns the digit value with the decimal point removed, the number of
fraction digits, and the unconsumed rest. -/
def parseMantissa? (t : List Char) : Option (Nat × Nat × List Char) :=
  let ip := t.takeWhile (fun c => c.isDigit)
  let rest := t.dropWhile (fun c => c.isDigit)
  match rest with
  | '.' :: r2 =>
    let fp := r2.takeWhile (fun c => c.isDigit)
    let rest2 := r2.dropWhile (fun c => c.isDigit)
    if ip.isEmpty && fp.isEmpty then none
    else some (digitsToNat (ip ++ fp), fp.length, rest2)
  | _ => if ip.isEmpty then none else some (digitsToNat ip, 0, rest)

/-- Optional exponent part: empty, or e/E followed by a signed digit string. -/
def expVal? : List Char → Option Int
  | [] => some 0
  | c :: r => if c = 'e' ∨ c = 'E' then parseIntCore? r else none

/-- The exact rational value mantNum / 10^fracLen * 10^e of a float literal,
assembled with mkRat over integer arithmetic. -/
def floatVal (mantNum fracLen : Nat) (e : Int) : ℚ :=
  if 0 ≤ e then mkRat (mantNum * 10 ^ e.toNat) (10 ^ fracLen)
  else mkRat mantNum (10 ^ fracLen * 10 ^ (-e).toNat)

/-- Unsigned Python float literal (mantissa and optional exponent). -/
def parseFloatCore? (t : List Char) : Option ℚ :=
  match parseMantissa? t with
  | none => none
  | some (m, fl, rest) => (expVal? rest).map (floatVal m fl)

/-- Python float(str): surrounding whitespace, optional sign, mantissa,
optional exponent.  The inf/nan spellings and underscore separators are not
modelled (they do not occur in OVF headers).  The value is the exact rational
of the literal. -/
def parseFloat? (s : List Char) : Option ℚ :=
  match stripWs s with
  | '+' :: t => parseFloatCore? t
  | '-' :: t => (parseFloatCore? t).map Rat.neg
  | t => parseFloatCore? t

/-- Python str.lower() on one ASCII character. -/
def lowerChar (c : Char) : Char :=
  if 'A' ≤ c ∧ c ≤ 'Z' then Char.ofNat (c.toNat + 32) else c

/-- Python str.lower() (ASCII; header values of interest are ASCII). -/
def asciiLower (s : List Char) : List Char := s.map lowerChar

/-! Constants from configs/ovf2.py. -/

/-- First line of an OVF 2.0 file (configs/ovf2.py OVF2_FIRST_LINE). -/
def OVF2_FIRST_LINE : List Char := "# OOMMF OVF 2.0\n".toList

/-- Header begin marker (configs/ovf2.py HEADER_BEGIN_MARKER). -/
def HEADER_BEGIN_MARKER : List Char := "# Begin: Header\n".toList

/-- Header end marker (configs/ovf2.py HEADER_END_MARKER). -/
def HEADER_END_MARKER : List Char := "# End: Header\n".toList

/-- Number of bytes read for the header prefix (configs/ovf2.py
HEADER_READ_BYTES = 64 * 1024). -/
def HEADER_READ_BYTES : Nat := 64 * 1024

/-- Data begin marker (configs/ovf2.py DATA_BEGIN_MARKER). -/
def DATA_BEGIN_MARKER : List Char := "# Begin: Data".toList

/-- Data end marker (configs/ovf2.py DATA_END_MARKER). -/
def DATA_END_MARKER : List Char := "# End: Data".toList

/-- Declared type of a schema key (the values of the HEADER_DTYPES table). -/
inductive DType where
  | tint
  | tfloat
  | tstr
deriving DecidableEq, Repr

/-- The schema table HEADER_DTYPES of configs/ovf2.py, in source order. -/
def HEADER_DTYPES : List (List Char × DType) := [
  ("Title".toList, .tstr),
  ("meshtype".toList, .tstr),
  ("meshunit".toList, .tstr),
  ("xmin".toList, .tfloat),
  ("ymin".toList, .tfloat),
  ("zmin".toList, .tfloat),
  ("xmax".toList, .tfloat),
  ("ymax".toList, .tfloat),
  ("zmax".toList, .tfloat),
  ("valuedim".toList, .tint),
  ("valuelabels".toList, .tstr),
  ("valueunits".toList, .tstr),
  ("xbase".toList, .tfloat),
  ("ybase".toList, .tfloat),
  ("zbase".toList, .tfloat),
  ("xnodes".toList, .tint),
  ("ynodes".toList, .tint),
  ("znodes".toList, .tint),
  ("xstepsize".toList, .tfloat),
  ("ystepsize".toList, .tfloat),
  ("zstepsize".toList, .tfloat)]

/-- Fuel-driven base-2 logarithm (floor), agreeing with Nat.log2 whenever the
fuel is at least the argument; structural so that it evaluates inside
proofs. -/
def log2Fuel : Nat → Nat → Nat
  | _, 0 => 0
  | 0, _ => 0
  | fuel + 1, n => if n ≤ 1 then 0 else log2Fuel fuel (n / 2) + 1

/-- Floor base-2 logarithm. -/
def natLog2 (n : Nat) : Nat := log2Fuel n n

/-- IEEE-754 binary32 bit pattern of a positive integer value that is exactly
representable (true for 1234567). -/
def f32BitsOfPosNat (v : Nat) : Nat :=
  let e := natLog2 v
  (e + 127) * 2 ^ 23 + (v * 2 ^ 23 / 2 ^ e - 2 ^ 23)

/-- IEEE-754 binary64 bit pattern of a positive integer value that is exactly
representable (true for 123456789012345). -/
def f64BitsOfPosNat (v : Nat) : Nat :=
  let e := natLog2 v
  (e + 1023) * 2 ^ 52 + (v * 2 ^ 52 / 2 ^ e - 2 ^ 52)

/-- Little-endian byte serialisation of the low `w` bytes of `n`, as one Char
per byte. -/
def leBytes (w n : Nat) : List Char :=
  (List.range w).map (fun i => Char.ofNat (n / 2 ^ (8 * i) % 256))

/-- configs/ovf2.py BINARY4_FLAG = np.float32(1234567.0).tobytes(): the
little-endian binary32 encoding of 1234567.0. -/
def BINARY4_FLAG : List Char := leBytes 4 (f32BitsOfPosNat 1234567)

/-- configs/ovf2.py BINARY8_FLAG = np.float64(123456789012345.0).tobytes():
the little-endian binary64 encoding of 123456789012345.0. -/
def BINARY8_FLAG : List Char := leBytes 8 (f64BitsOfPosNat 123456789012345)

/-! The header data model. -/

/-- A coerced header value: Python int, float or str. -/
inductive HVal where
  | i (n : Int)
  | f (q : ℚ)
  | s (v : List Char)
deriving DecidableEq, Repr

/-- The metadata dictionary, with Python dict semantics for lookup and
update (assignment to an existing key replaces its value in place). -/
abbrev Dict := List (List Char × HVal)

/-- Lookup in the metadata dict (Python dict indexing / the in operator). -/
def dlookup : Dict → List Char → Option HVal
  | [], _ => none
  | (k', v) :: rest, k => if k' = k then some v else dlookup rest k

/-- Python dict assignment md[key] = v. -/
def dictInsert : Dict → List Char → HVal → Dict
  | [], k, v => [(k, v)]
  | (k', v') :: rest, k, v =>
    if k' = k then (k, v) :: rest else (k', v') :: dictInsert rest k v

/-- First-match lookup in an association list of schema entries. -/
def schemaLookup : List (List Char × DType) → List Char → Option DType
  | [], _ => none
  | (k', t) :: rest, k => if k' = k then some t else schemaLookup rest k

/-- HEADER_DTYPES.get(key, str): the declared type of a key, defaulting to
str for keys absent from the schema. -/
def schemaType (k : List Char) : DType :=
  (schemaLookup HEADER_DTYPES k).getD .tstr

/-! Errors.  OVF2Error (io/exceptions.py) carries the offending file name;
builtin Python exceptions raised by the reader (ValueError from int()/float(),
KeyError from dict indexing, the numpy reshape/memmap errors) do not. -/

/-- All failure outcomes of the reader, with the data each carried Python
exception holds. -/
inductive Err where
  | invalidFirstLine (fn : List Char) (firstLine : List Char)
  | headerMarkersNotFound (fn : List Char)
  | intParseError (raw : List Char)
  | floatParseError (raw : List Char)
  | unsupportedMeshType (fn : List Char) (got : List Char)
  | unsupportedValuedim (fn : List Char) (got : Option HVal)
  | nodesKeyError
  | dataBlockNotFound (fn : List Char)
  | malformedPayload (fn : List Char)
  | nodeCountMismatch (fn : List Char) (expected : Int) (actual : Nat)
  | reshapeError
  | flagMismatch (fn : List Char) (expected observed : List Char)
  | unsupportedMode (fn : List Char) (got : List Char)
  | memmapError
deriving DecidableEq, Repr

/-- The file name attached to an error: some fn for OVF2Error instances,
none for builtin Python exceptions (ValueError, KeyError, numpy errors),
which carry no file attribute. -/
def errFile : Err → Option (List Char)
  | .invalidFirstLine fn _ => some fn
  | .headerMarkersNotFound fn => some fn
  | .intParseError _ => none
  | .floatParseError _ => none
  | .unsupportedMeshType fn _ => some fn
  | .unsupportedValuedim fn _ => some fn
  | .nodesKeyError => none
  | .dataBlockNotFound fn => some fn
  | .malformedPayload fn => some fn
  | .nodeCountMismatch fn _ _ => some fn
  | .reshapeError => none
  | .flagMismatch fn _ _ => some fn
  | .unsupportedMode fn _ => some fn
  | .memmapError => none

/-! The Header Parser: ovf2_reader.py extract_metadata. -/

/-- The schema coercion of one stripped key/value pair: int, float, or str
per the declared type; int()/float() failures are the uncaught ValueError of
the source, carrying only the raw literal. -/
def coerceKV (md : Dict) (key value : List Char) : Except Err Dict :=
  match schemaType key with
  | .tint =>
    match parseInt? value with
    | some n => .ok (dictInsert md key (.i n))
    | none => .error (.intParseError value)
  | .tfloat =>
    match parseFloat? value with
    | some q => .ok (dictInsert md key (.f q))
    | none => .error (.floatParseError value)
  | .tstr => .ok (dictInsert md key (.s value))

/-- One iteration of the header line loop of extract_metadata: skip lines
without a colon, split the rest at the last colon, strip the key of
surrounding # and space, strip the value of whitespace, and coerce per the
schema. -/
def procLine (md : Dict) (line : List Char) : Except Err Dict :=
  match rsplitColon line with
  | none => .ok md
  | some (k0, v0) => coerceKV md (stripHashSpace k0) (stripWs v0)

/-- The header line loop of extract_metadata. -/
def processLines : List (List Char) → Dict → Except Err Dict
  | [], md => .ok md
  | l :: rest, md =>
    match procLine md l with
    | .ok md2 => processLines rest md2
    | .error e => .error e

/-- ovf2_reader.py extract_metadata: locate the header markers, slice the
bytes between them, split into lines and run the coercion loop. -/
def extract_metadata (fn content : List Char) : Except Err Dict :=
  match findSub content HEADER_BEGIN_MARKER, findSub content HEADER_END_MARKER with
  | some s, some e =>
    processLines (splitlines ((content.take e).drop (s + HEADER_BEGIN_MARKER.length))) []
  | _, _ => .error (.headerMarkersNotFound fn)

/-! The Lattice Reorderer: ovf2_reader.py reorder_xyz.  A numpy array view is
modelled as an index function; reshape to (Z, Y, X, 3) of a C-order flat
buffer is index arithmetic, transpose with axes (2, 1, 0, 3) permutes the
indices.  numpy reshape demands that the total element count matches, hence
the Option. -/

/-- C-order reshape of a flat buffer to a 4-axis view: element (i0,i1,i2,i3)
of an array of shape (d0,d1,d2,d3). -/
def reshape4 (flat : List α) (_d0 d1 d2 d3 : Nat) : Nat → Nat → Nat → Nat → Option α :=
  fun i0 i1 i2 i3 => flat.get? (((i0 * d1 + i1) * d2 + i2) * d3 + i3)

/-- np.transpose(a, (2, 1, 0, 3)) on a 4-axis view. -/
def transpose2103 (a : Nat → Nat → Nat → Nat → Option α) : Nat → Nat → Nat → Nat → Option α :=
  fun i0 i1 i2 i3 => a i2 i1 i0 i3

/-- ovf2_reader.py reorder_xyz: m_flat.reshape(Z, Y, X, 3) then transpose
with axes (2, 1, 0, 3); none models the numpy reshape error when the flat
size is not Z*Y*X*3. -/
def reorder_xyz (m_flat : List α) (X Y Z : Nat) : Option (Nat → Nat → Nat → Nat → Option α) :=
  if m_flat.length = Z * Y * X * 3 then some (transpose2103 (reshape4 m_flat Z Y X 3))
  else none

/-! The Text payload decoder: ovf2_reader.py extract_magnetic_data_from_text
and np.fromstring(s, sep=" ", dtype=np.float32). -/

/-- Whitespace tokenisation of the payload text, accumulator form. -/
def tokAux : List Char → List Char → List (List Char)
  | [], acc => if acc.isEmpty then [] else [acc.reverse]
  | c :: rest, acc =>
    if pyWs.contains c then
      if acc.isEmpty then tokAux rest [] else acc.reverse :: tokAux rest []
    else tokAux rest (c :: acc)

/-- Split a string into maximal whitespace-free tokens. -/
def tokenize (s : List Char) : List (List Char) := tokAux s []

/-- Parse a prefix of tokens as floats, stopping at the first token that is
not a float literal; models the lenient truncation of the legacy
np.fromstring(sep=" ") parser.  (float32 rounding is not modelled; the
values are exact rationals.) -/
def parseFloatsPre : List (List Char) → List ℚ
  | [] => []
  | t :: ts =>
    match parseFloat? t with
    | some q => q :: parseFloatsPre ts
    | none => []

/-- np.fromstring(s, sep=" ", dtype=np.float32): the whitespace-separated
float values of s. -/
def npFromStr (s : List Char) : List ℚ := parseFloatsPre (tokenize s)

/-- ovf2_reader.py extract_magnetic_data_from_text: locate the data markers
over the whole file, take the text between the first newline after the begin
marker and the end marker, parse it as floats, and require a multiple of
three values. -/
def extract_magnetic_data_from_text (fn content : List Char) : Except Err (List ℚ) :=
  match findSub content DATA_BEGIN_MARKER, findSub content DATA_END_MARKER with
  | some s, some e =>
    if e ≤ s then .error (.dataBlockNotFound fn)
    else
      let pstart := match findCharFrom content '\x0a' s with
        | some i => i + 1
        | none => 0
      let payload := (content.take e).drop pstart
      let m_flat := npFromStr payload
      if m_flat.length % 3 ≠ 0 then .error (.malformedPayload fn)
      else .ok m_flat
  | _, _ => .error (.dataBlockNotFound fn)

/-! The Single-File Reader: ovf2_reader.py read_ovf2, staged along the
straight-line structure of the source. -/

/-- One decoded sample component: a parsed float (Text mode) or the raw
little-endian bytes viewed by the memmap (binary modes). -/
inductive Sample where
  | txt (q : ℚ)
  | bin (bytes : List Char)
deriving DecidableEq, Repr

/-- A magnetization array view, indexed (x, y, z, component). -/
abbrev Mag := Nat → Nat → Nat → Nat → Option Sample

/-- head.splitlines()[0] if head else the empty-file placeholder, used in the
invalid-first-line message. -/
def firstLineOf (head : List Char) : List Char :=
  match splitlines head with
  | l :: _ => l
  | [] => "<empty file>".toList

/-- The meshtype value used by read_ovf2: metadata.get("meshtype", "").  The
schema types meshtype as str, so a non-str value is unreachable (Python would
raise AttributeError on .lower() there); it is mapped to the empty string. -/
def meshValueOf (md : Dict) : List Char :=
  match dlookup md ("meshtype".toList) with
  | some (.s v) => v
  | some (.i _) => []
  | some (.f _) => []
  | none => []

/-- The schema validation lines of read_ovf2: the lowercased meshtype must be
rectangular, valuedim must be the int 3, and the three node counts are read
by dict indexing (KeyError when absent; non-int node values are unreachable
because the schema types them as int). -/
def validateMeta (fn : List Char) (md : Dict) : Except Err (Int × Int × Int) :=
  let meshVal := meshValueOf md
  if asciiLower meshVal ≠ "rectangular".toList then
    .error (.unsupportedMeshType fn meshVal)
  else
    let vd := dlookup md ("valuedim".toList)
    if vd ≠ some (.i 3) then .error (.unsupportedValuedim fn vd)
    else
      match dlookup md ("xnodes".toList), dlookup md ("ynodes".toList),
            dlookup md ("znodes".toList) with
      | some (.i x), some (.i y), some (.i z) => .ok (x, y, z)
      | _, _, _ => .error .nodesKeyError

/-- The data-marker lines of read_ovf2: find DATA_BEGIN_MARKER in the head
buffer, cut its line at the following newline, and strip the marker off to
obtain the mode token; the second component is the byte offset just past the
marker line (the payload start).  When the marker is absent, Python computes
head.find(newline, -1) on the -1 result and slices with a negative start;
in every reachable case (head is nonempty here) that yields the empty mode
token, which the caller rejects as an unsupported mode, and the payload
start is never used, so that case is modelled as the empty token directly. -/
def dataMarkerInfo (head : List Char) : List Char × Nat :=
  match findSub head DATA_BEGIN_MARKER with
  | none => ([], 0)
  | some ds =>
    let de := match findCharFrom head '\x0a' ds with
      | some i => i + 1
      | none => 0
    let line := (head.take de).drop ds
    let mode := stripWs (if DATA_BEGIN_MARKER.isPrefixOf line then
        line.drop DATA_BEGIN_MARKER.length else line)
    (mode, de)

/-- Fuel-driven recursion for chunkList; the fuel is the list length, which
bounds the number of nonempty chunks for any positive width. -/
def chunkAux (w : Nat) : Nat → List Char → List (List Char)
  | _, [] => []
  | 0, _ => []
  | fuel + 1, l => l.take w :: chunkAux w fuel (l.drop w)

/-- Consecutive w-byte groups of a byte string (w positive in all uses). -/
def chunkList (w : Nat) (l : List Char) : List (List Char) :=
  if w = 0 then [] else chunkAux w l.length l

/-- np.memmap(fn, mode="r", dtype, offset, shape=n): a read-only view of n
little-endian w-byte values starting at the byte offset; none models the
ValueError raised when the shape is negative or the file is too short for
the requested view. -/
def memmapChunks (content : List Char) (w offset : Nat) (n : Int) : Option (List (List Char)) :=
  if 0 ≤ n ∧ offset + n.toNat * w ≤ content.length then
    some (chunkList w ((content.drop offset).take (n.toNat * w)))
  else none

/-- The shared tail of the two binary branches of read_ovf2: memmap 3*N
values of width w at the given offset, then reorder.  (The reshape inside
reorder_xyz cannot fail here: the memmap length is exactly 3*N.) -/
def binTail (_fn content : List Char) (md : Dict) (x y z : Int) (offset w : Nat) :
    Except Err (Dict × Mag) :=
  match memmapChunks content w offset (3 * (x * y * z)) with
  | none => .error .memmapError
  | some flat =>
    match reorder_xyz (flat.map Sample.bin) x.toNat y.toNat z.toNat with
    | none => .error .reshapeError
    | some mag => .ok (md, mag)

/-- The Text branch of read_ovf2: re-read the whole file, extract the float
values, compare their count against N = X*Y*Z (the source compares the flat
value count, which is 3*N for a well-formed file, against N), and reorder. -/
def textTail (fn content : List Char) (md : Dict) (x y z : Int) :
    Except Err (Dict × Mag) :=
  match extract_magnetic_data_from_text fn content with
  | .error e => .error e
  | .ok m_flat =>
    let n : Int := x * y * z
    if (m_flat.length : Int) ≠ n then
      .error (.nodeCountMismatch fn n m_flat.length)
    else
      match reorder_xyz (m_flat.map Sample.txt) x.toNat y.toNat z.toNat with
      | none => .error .reshapeError
      | some mag => .ok (md, mag)

/-- The mode dispatch of read_ovf2: Binary 4 and Binary 8 check the sentinel
flag taken from the head buffer and then memmap past it; Text re-reads the
file; any other token is an unsupported mode. -/
def dispatchMode (fn content : List Char) (md : Dict) (x y z : Int) :
    Except Err (Dict × Mag) :=
  let head := content.take HEADER_READ_BYTES
  let mp := dataMarkerInfo head
  if mp.1 = "Binary 4".toList then
    let flag := (head.take (mp.2 + 4)).drop mp.2
    if flag = BINARY4_FLAG then binTail fn content md x y z (mp.2 + 4) 4
    else .error (.flagMismatch fn BINARY4_FLAG flag)
  else if mp.1 = "Binary 8".toList then
    let flag := (head.take (mp.2 + 8)).drop mp.2
    if flag = BINARY8_FLAG then binTail fn content md x y z (mp.2 + 8) 8
    else .error (.flagMismatch fn BINARY8_FLAG flag)
  else if mp.1 = "Text".toList then textTail fn content md x y z
  else .error (.unsupportedMode fn mp.1)

/-- ovf2_reader.py read_ovf2 on the full file contents: check the magic first
line on the 64 KiB head, parse and validate the header, then dispatch on the
data mode. -/
def read_ovf2 (fn content : List Char) : Except Err (Dict × Mag) :=
  let head := content.take HEADER_READ_BYTES
  if OVF2_FIRST_LINE.isPrefixOf head then
    match extract_metadata fn head with
    | .error e => .error e
    | .ok md =>
      match validateMeta fn md with
      | .error e => .error e
      | .ok (x, y, z) => dispatchMode fn content md x y z
  else .error (.invalidFirstLine fn (firstLineOf head))

/-! The Aggregator: io/hdf5_store.py.  The HDF5 container itself is an
external collaborator; the observables modelled here are the per-frame time
values written to the time dataset and the metadata-consistency failure.
A frame is the (path, header) pair produced by read_ovf2 on one file. -/

/-- Modelled from the spec: the constant HEADER_TIME_KEY_CANDIDATES lives in
the configs package __init__, which is not part of the sources; the spec
describes it as an ordered list of header field names that typically encode
elapsed simulated time with a seconds unit suffix, and its worked example
uses the field "Total simulation time". -/
def HEADER_TIME_KEY_CANDIDATES : List (List Char) := [("Total simulation time").toList]

/-- The body of the try block in _extract_time_from_header for one candidate
value: a non-str value raises AttributeError at .removesuffix (caught, try
the next candidate); for a str the source computes the suffix-stripped text
into a local variable it never uses and then calls float on the original
hdr[k], whose ValueError is likewise caught. -/
def tryParseTimeVal : HVal → Option ℚ
  | .s v => parseFloat? v
  | .i _ => none
  | .f _ => none

/-- The candidate loop of _extract_time_from_header over an explicit
candidate list. -/
def extractTimeCore : List (List Char) → Dict → Option ℚ
  | [], _ => none
  | k :: rest, hdr =>
    match dlookup hdr k with
    | some v =>
      match tryParseTimeVal v with
      | some t => some t
      | none => extractTimeCore rest hdr
    | none => extractTimeCore rest hdr

/-- hdf5_store.py _extract_time_from_header. -/
def extractTimeFromHeader (hdr : Dict) : Option ℚ :=
  extractTimeCore HEADER_TIME_KEY_CANDIDATES hdr

/-- os.path.basename restricted to slash separators. -/
def basenameOf (path : List Char) : List Char :=
  (path.reverse.takeWhile (fun c => c ≠ '/')).reverse

/-- The maximal digit run at the head of s, extended by a dot and a following
digit run when present: one match of the number pattern of
_fallback_time_from_filename. -/
def numAt (s : List Char) : List Char :=
  let ds := s.takeWhile (fun c => c.isDigit)
  let rest := s.dropWhile (fun c => c.isDigit)
  match rest with
  | '.' :: r2 =>
    let fs := r2.takeWhile (fun c => c.isDigit)
    if fs.isEmpty then ds else ds ++ '.' :: fs
  | _ => ds

/-- The leftmost match of the number pattern in s (regex search). -/
def firstNum? : List Char → Option (List Char)
  | [] => none
  | c :: rest => if c.isDigit then some (numAt (c :: rest)) else firstNum? rest

/-- hdf5_store.py _fallback_time_from_filename: the first run of digits
(optionally with a decimal part) in the base name, as a float. -/
def fallbackTimeFromFilename (path : List Char) : Option ℚ :=
  match firstNum? (basenameOf path) with
  | some tok => parseFloat? tok
  | none => none

/-- One input frame of the aggregator: the file path and the header that
read_ovf2 produced for it. -/
structure FrameInput where
  path : List Char
  hdr : Dict
deriving DecidableEq, Repr

/-- The two-tier time fallback applied to one path/header pair; none stands
for the final np.nan fallback. -/
def frameTime (path : List Char) (hdr : Dict) : Option ℚ :=
  match extractTimeFromHeader hdr with
  | some t => some t
  | none => fallbackTimeFromFilename path

/-- The aggregator failure: the ValueError raised on inconsistent metadata,
carrying the key, the value and path of the offending frame, and the value
and path of the baseline frame, exactly the data of the message. -/
inductive BuildErr where
  | inconsistentMetadata (key : List Char) (v : Option HVal) (path : List Char)
      (v0 : Option HVal) (path0 : List Char)
deriving DecidableEq, Repr

/-- Does schema key k witness an inconsistency: present in the baseline
header and in the frame header with a different value?  (Keys absent from
the frame header are not compared.) -/
def violatesAt (firstHdr hdr : Dict) (k : List Char) : Bool :=
  match dlookup firstHdr k, dlookup hdr k with
  | some v0, some v => decide (v ≠ v0)
  | _, _ => false

/-- The consistency loop of build_h5_from_ovfs for one subsequent frame: the
source iterates the set HEADER_DTYPES.keys() & first_hdr.keys() (whose order
Python leaves unspecified; schema order is used here) and raises on the
first key present in the frame header with a differing value. -/
def checkFrame (firstPath : List Char) (firstHdr : Dict) (p : List Char) (h : Dict) :
    Except BuildErr Unit :=
  match (HEADER_DTYPES.map Prod.fst).find? (violatesAt firstHdr h) with
  | some k => .error (.inconsistentMetadata k (dlookup h k) p (dlookup firstHdr k) firstPath)
  | none => .ok ()

/-- The loop over the subsequent frames of build_h5_from_ovfs: check each
frame against the baseline, then derive its time value; the source reads
first_hdr and first_path here instead of the frame under iteration, and that
behaviour is transcribed as is. -/
def buildRest (firstPath : List Char) (firstHdr : Dict) :
    List FrameInput → Except BuildErr (List (Option ℚ))
  | [] => .ok []
  | f :: rest =>
    match checkFrame firstPath firstHdr f.path f.hdr with
    | .error e => .error e
    | .ok _ =>
      let t := frameTime firstPath firstHdr
      match buildRest firstPath firstHdr rest with
      | .error e => .error e
      | .ok ts => .ok (t :: ts)

/-- hdf5_store.py build_h5_from_ovfs restricted to its modelled observables:
the vector of time values written to the time dataset (none = np.nan), or
the inconsistent-metadata failure.  The empty list is unreachable because
_collect_ovf_files raises on an empty folder. -/
def build_h5_from_ovfs (frames : List FrameInput) : Except BuildErr (List (Option ℚ)) :=
  match frames with
  | [] => .ok []
  | f0 :: rest =>
    let t0 := frameTime f0.path f0.hdr
    match buildRest f0.path f0.hdr rest with
    | .error e => .error e
    | .ok ts => .ok (t0 :: ts)

/-! Concrete fixtures used by the evaluation theorems below. -/

/-- A file name used by the fixtures. -/
def fnFix : List Char := "text.ovf".toList

/-- The 2x2x2 Text-mode fixture of the test suite and of the end-to-end
scenario: value (i+1, j+1, k+1) at lattice point (i, j, k), emitted x
fastest, 24 = 3*8 whitespace-separated values. -/
def textFixture : List Char :=
  ("# OOMMF OVF 2.0\n# Begin: Header\n# meshtype: rectangular\n# valuedim: 3\n# xnodes: 2\n# ynodes: 2\n# znodes: 2\n# End: Header\n# Begin: Data Text\n1 1 1\n2 1 1\n1 2 1\n2 2 1\n1 1 2\n2 1 2\n1 2 2\n2 2 2\n# End: Data Text\n").toList

/-- A well-formed 1x1x1 Binary 4 file whose meshtype is spelled
Rectangular with a capital R. -/
def capitalMeshFixture : List Char :=
  ("# OOMMF OVF 2.0\n# Begin: Header\n# meshtype: Rectangular\n# valuedim: 3\n# xnodes: 1\n# ynodes: 1\n# znodes: 1\n# End: Header\n# Begin: Data Binary 4\n").toList
  ++ BINARY4_FLAG ++ ("abcdefghijkl").toList ++ ("\n# End: Data Binary 4\n").toList

/-- A 1x1x1 Binary 4 file whose four sentinel bytes are XXXX instead of the
binary32 flag. -/
def badFlagFixture : List Char :=
  ("# OOMMF OVF 2.0\n# Begin: Header\n# meshtype: rectangular\n# valuedim: 3\n# xnodes: 1\n# ynodes: 1\n# znodes: 1\n# End: Header\n# Begin: Data Binary 4\nXXXXabcdefghijkl\n# End: Data Binary 4\n").toList

/-- Both header markers present but the end marker before the begin marker. -/
def reversedMarkersFixture : List Char :=
  ("# OOMMF OVF 2.0\n# End: Header\n# Begin: Header\n").toList

/-- A header whose only line carries a tab between the # and the key. -/
def tabKeyFixture : List Char :=
  ("# Begin: Header\n#\txnodes: 5\n# End: Header\n").toList

/-- A header whose xnodes line carries a non-numeric value, preceded by one
well-formed line. -/
def badIntFixture : List Char :=
  ("# Begin: Header\n# Title: t\n# xnodes: abc\n# End: Header\n").toList

/-- The header dict of a frame whose time field carries a trailing s unit. -/
def timeSuffixHdr : Dict :=
  [(("Total simulation time").toList, HVal.s ("3.5s".toList))]

/-- A header whose meshtype is cubic, for exercising the unsupported-mesh
error path. -/
def cubicMeshFixture : List Char :=
  ("# OOMMF OVF 2.0\n# Begin: Header\n# meshtype: cubic\n# End: Header\n").toList

/-- The header dict parsed from capitalMeshFixture. -/
def capitalMeshHdr : Dict :=
  [(("meshtype").toList, .s ("Rectangular").toList), (("valuedim").toList, .i 3),
   (("xnodes").toList, .i 1), (("ynodes").toList, .i 1), (("znodes").toList, .i 1)]

/-- The header dict parsed from badFlagFixture. -/
def badFlagHdr : Dict :=
  [(("meshtype").toList, .s ("rectangular").toList), (("valuedim").toList, .i 3),
   (("xnodes").toList, .i 1), (("ynodes").toList, .i 1), (("znodes").toList, .i 1)]

/-- Baseline frame of the inconsistent-metadata witness: xnodes 100. -/
def incFrame0 : FrameInput := ⟨("a.ovf").toList, [(("xnodes").toList, HVal.i 100)]⟩

/-- Offending frame of the inconsistent-metadata witness: xnodes 50. -/
def incFrame1 : FrameInput := ⟨("b.ovf").toList, [(("xnodes").toList, HVal.i 50)]⟩

/-- The flat emission order of the claimed round trip, modelled from the
spec: for z in range(Z): for y in range(Y): for x in range(X): emit the
3-vector sample at (x, y, z). -/
def emitOrder (X Y Z : Nat) (f : Nat → Nat → Nat → Nat → α) : List α :=
  ((List.range Z).map (fun z =>
    ((List.range Y).map (fun y =>
      ((List.range X).map (fun x => [f x y z 0, f x y z 1, f x y z 2])).flatten)).flatten)).flatten

/-! Theorems. -/

set_option maxRecDepth 100000

/-- C1: the claim is right and the code is wrong.  On the 2x2x2 Text fixture
of the test suite, whose payload holds exactly 3*N = 24 whitespace-separated
values for N = 8 nodes, the decoder does yield 24 values, yet read_ovf2
fails with the NodeCountMismatch error reporting expected 8 versus actual
24: the source compares the flat value count against N instead of 3*N, so
every well-formed nonempty Text file is rejected, contradicting the success
the test suite asserts on this very fixture. -/
theorem claim1_text_node_count_code_bug :
    (extract_magnetic_data_from_text fnFix textFixture).map List.length = .ok 24 ∧
    read_ovf2 fnFix textFixture = .error (.nodeCountMismatch fnFix 8 24) := by
  exact ⟨rfl, rfl⟩

/-- C3: the claim is right and the code is wrong.  Two frames whose headers
carry the parseable time fields 0.5 and 1.5: the loop over subsequent frames
derives every time value from the header and path of frame 0 (first_hdr,
first_path), so slot 1 receives 0.5, frame 0 time, not 1.5, frame 1 own
time, although frame 1 own header would yield 1.5.  This contradicts the
intent stated in the build_h5_from_ovfs docstring (times are extracted from
the OVF headers, per frame) and the spec flags it as an apparent bug. -/
theorem claim3_subsequent_frame_time_code_bug :
    build_h5_from_ovfs
      [⟨("m_000.ovf").toList, [(("Total simulation time").toList, HVal.s ("0.5".toList))]⟩,
       ⟨("m_001.ovf").toList, [(("Total simulation time").toList, HVal.s ("1.5".toList))]⟩] =
      .ok [some (mkRat 1 2), some (mkRat 1 2)] ∧
    frameTime (("m_001.ovf").toList)
      [(("Total simulation time").toList, HVal.s ("1.5".toList))] = some (mkRat 3 2) := by
  exact ⟨by decide, by decide⟩

/-- C4: the claim is right and the code is wrong.  A header whose
Total simulation time field is the numeric literal 3.5 followed by the unit
suffix s: _extract_time_from_header computes the stripped literal into a
local variable it never uses and then parses the original, unstripped
string, whose ValueError is swallowed, so the derived time is none (a
fallback is taken) although the stripped literal parses to 3.5; with the
file name m_00012.ovf the frame time becomes the filename fallback 12
instead of 3.5. -/
theorem claim4_time_suffix_code_bug :
    extractTimeFromHeader timeSuffixHdr = none ∧
    parseFloat? (stripWs (("3.5s".toList).dropLast)) = some (mkRat 7 2) ∧
    frameTime (("m_00012.ovf").toList) timeSuffixHdr = some (mkRat 12 1) := by
  exact ⟨by decide, by decide, by decide⟩

/-- C10: confirmed.  When both header markers are present in the head buffer
but the end marker occurs before the begin marker, extract_metadata does not
raise the header-not-found error: the slice between the markers is reversed,
hence empty, so it returns the empty header mapping, and read_ovf2 (for a
file that passes the magic-first-line check) then fails with the
unsupported-mesh-type error on the missing meshtype, not with an error about
the malformed header. -/
theorem claim10_reversed_markers (fn content : List Char) (s e : Nat)
    (hs : findSub (content.take HEADER_READ_BYTES) HEADER_BEGIN_MARKER = some s)
    (he : findSub (content.take HEADER_READ_BYTES) HEADER_END_MARKER = some e)
    (hlt : e < s)
    (hfl : OVF2_FIRST_LINE.isPrefixOf (content.take HEADER_READ_BYTES) = true) :
    extract_metadata fn (content.take HEADER_READ_BYTES) = .ok [] ∧
    read_ovf2 fn content = .error (.unsupportedMeshType fn []) := by
  have hslice : (((content.take HEADER_READ_BYTES).take e).drop
      (s + HEADER_BEGIN_MARKER.length)) = [] := by
    apply List.drop_eq_nil_of_le
    calc ((content.take HEADER_READ_BYTES).take e).length ≤ e := by
          simp [List.length_take]
      _ ≤ s + HEADER_BEGIN_MARKER.length := by omega
  have hmeta : extract_metadata fn (content.take HEADER_READ_BYTES) = .ok [] := by
    simp only [extract_metadata, hs, he, hslice]
    rfl
  refine ⟨hmeta, ?_⟩
  simp only [read_ovf2, hfl, if_true, hmeta]
  rfl

/-- Closed witness for claim10_reversed_markers at the reversed-markers
fixture, whose begin marker sits at byte 30 and end marker at byte 16. -/
theorem claim10_witness :
    extract_metadata fnFix (reversedMarkersFixture.take HEADER_READ_BYTES) = .ok [] ∧
    read_ovf2 fnFix reversedMarkersFixture = .error (.unsupportedMeshType fnFix []) :=
  claim10_reversed_markers fnFix reversedMarkersFixture 30 16
    (by decide) (by decide) (by decide) (by decide)

/-- Characters of w all satisfy the non-colon predicate, so takeWhile passes
over w and stops at the colon. -/
theorem takeWhile_ne_colon (w rest : List Char) (hw : (':') ∉ w) :
    (w ++ ':' :: rest).takeWhile (fun c => decide (c ≠ ':')) = w := by
  induction w with
  | nil => simp
  | cons c cs ih =>
    have hc : c ≠ ':' := fun h => hw (h ▸ List.mem_cons_self c cs)
    have hcs : (':') ∉ cs := fun h => hw (List.mem_cons_of_mem c h)
    rw [List.cons_append, List.takeWhile_cons]
    simp only [decide_eq_true hc, if_true]
    rw [ih hcs]

/-- Companion of takeWhile_ne_colon for dropWhile. -/
theorem dropWhile_ne_colon (w rest : List Char) (hw : (':') ∉ w) :
    (w ++ ':' :: rest).dropWhile (fun c => decide (c ≠ ':')) = ':' :: rest := by
  induction w with
  | nil => simp
  | cons c cs ih =>
    have hc : c ≠ ':' := fun h => hw (h ▸ List.mem_cons_self c cs)
    have hcs : (':') ∉ cs := fun h => hw (List.mem_cons_of_mem c h)
    rw [List.cons_append, List.dropWhile_cons]
    simp only [decide_eq_true hc, if_true]
    rw [ih hcs]

/-- rsplitColon splits at the last colon of the line: with no colon in b,
the line a ++ colon ++ b splits into key part a and value part b. -/
theorem rsplitColon_last (a b : List Char) (hb : (':') ∉ b) :
    rsplitColon (a ++ ':' :: b) = some (a, b) := by
  have hrev : (a ++ ':' :: b).reverse = b.reverse ++ ':' :: a.reverse := by
    simp
  have hbrev : (':') ∉ b.reverse := by
    intro h
    exact hb (List.mem_reverse.mp h)
  unfold rsplitColon
  rw [hrev, takeWhile_ne_colon _ _ hbrev, dropWhile_ne_colon _ _ hbrev]
  simp

/-- A line without a colon has no split. -/
theorem rsplitColon_none (l : List Char) (hl : (':') ∉ l) :
    rsplitColon l = none := by
  have hrev : (':') ∉ l.reverse := by
    intro h
    exact hl (List.mem_reverse.mp h)
  unfold rsplitColon
  rw [List.dropWhile_eq_nil_iff.mpr (fun x hx => by
    simp only [decide_eq_true_eq]
    intro hcol
    exact hrev (hcol ▸ hx))]

/-- C5, amended: for every header line containing a colon, the parser splits
at the last colon into a key stripped of surrounding # and space characters
(only those two characters: other whitespace such as a tab is retained,
which is the amendment) and a value stripped of whitespace, coerces the
value per the schema type of the key, treats keys absent from the schema as
free-form strings, and ignores lines without a colon; extract_metadata runs
this per-line processing over the lines between the header markers. -/
theorem claim5_amended (md : Dict) (a b l : List Char)
    (hb : (':') ∉ b) (hl : (':') ∉ l) :
    rsplitColon (a ++ ':' :: b) = some (a, b) ∧
    procLine md l = .ok md ∧
    procLine md (a ++ ':' :: b) =
      (match schemaType (stripHashSpace a) with
       | .tint =>
         match parseInt? (stripWs b) with
         | some n => .ok (dictInsert md (stripHashSpace a) (.i n))
         | none => .error (.intParseError (stripWs b))
       | .tfloat =>
         match parseFloat? (stripWs b) with
         | some q => .ok (dictInsert md (stripHashSpace a) (.f q))
         | none => .error (.floatParseError (stripWs b))
       | .tstr => .ok (dictInsert md (stripHashSpace a) (.s (stripWs b)))) ∧
    (∀ k, schemaLookup HEADER_DTYPES k = none → schemaType k = .tstr) ∧
    (∀ fn content s e, findSub content HEADER_BEGIN_MARKER = some s →
      findSub content HEADER_END_MARKER = some e →
      extract_metadata fn content =
        processLines
          (splitlines ((content.take e).drop (s + HEADER_BEGIN_MARKER.length))) []) := by
  refine ⟨rsplitColon_last a b hb, ?_, ?_, ?_, ?_⟩
  · simp [procLine, rsplitColon_none l hl]
  · simp only [procLine, rsplitColon_last a b hb]
    rfl
  · intro k hk
    simp [schemaType, hk]
  · intro fn content s e hs he
    simp only [extract_metadata, hs, he]

/-- Closed witness for claim5_amended: the line with key text # xmin and
value text nope is coerced per the float schema entry for xmin; a line
without a colon is ignored. -/
theorem claim5_witness :
    rsplitColon ((("# xmin").toList) ++ ':' :: ((" nope").toList)) =
      some ((("# xmin").toList), ((" nope").toList)) ∧
    procLine [] (("no colon here").toList) = .ok [] :=
  ⟨(claim5_amended [] (("# xmin").toList) ((" nope").toList) (("no colon here").toList)
      (by decide) (by decide)).1,
   (claim5_amended [] (("# xmin").toList) ((" nope").toList) (("no colon here").toList)
      (by decide) (by decide)).2.1⟩

/-- C5, counterexample: the claim says the key is stripped of surrounding #
and whitespace, but on the line whose key text is # followed by a tab and
xnodes, the parser strips only the leading # and keeps the tab: the stored
key is tab-xnodes as a free-form string entry, the schema key xnodes is not
populated, while stripping # together with all whitespace would have
produced the key xnodes with the int value 5. -/
theorem claim5_counterexample :
    extract_metadata fnFix tabKeyFixture =
      .ok [(('\x09' :: ("xnodes").toList), .s ("5".toList))] ∧
    stripChars ('#' :: pyWs) (('#' :: '\x09' :: ("xnodes").toList)) = ("xnodes").toList ∧
    dlookup [(('\x09' :: ("xnodes").toList), HVal.s ("5".toList))] (("xnodes").toList) =
      none := by
  exact ⟨by decide, by decide, by decide⟩

/-- Whether the schema coercion succeeds depends only on the key and value,
not on the dict accumulated so far. -/
theorem coerceKV_isOk_indep (md : Dict) (key value : List Char) :
    (coerceKV md key value).isOk = (coerceKV [] key value).isOk := by
  unfold coerceKV
  cases schemaType key with
  | tint => cases parseInt? value <;> rfl
  | tfloat => cases parseFloat? value <;> rfl
  | tstr => rfl

/-- The error value of a failing coercion likewise depends only on the key
and value. -/
theorem coerceKV_error_indep (md : Dict) (key value : List Char) (e : Err) :
    coerceKV md key value = .error e ↔ coerceKV [] key value = .error e := by
  unfold coerceKV
  cases schemaType key with
  | tint => cases parseInt? value <;> simp
  | tfloat => cases parseFloat? value <;> simp
  | tstr => simp

/-- A failing coercion fails with one of the two builtin ValueError shapes,
which carry no file name. -/
theorem errFile_of_coerceKV_error (md : Dict) (key value : List Char) (e : Err)
    (h : coerceKV md key value = .error e) : errFile e = none := by
  unfold coerceKV at h
  cases hs : schemaType key with
  | tint =>
    rw [hs] at h
    cases hp : parseInt? value with
    | none =>
      rw [hp] at h
      injection h with h2
      subst h2
      rfl
    | some n => rw [hp] at h; exact Except.noConfusion h
  | tfloat =>
    rw [hs] at h
    cases hp : parseFloat? value with
    | none =>
      rw [hp] at h
      injection h with h2
      subst h2
      rfl
    | some q => rw [hp] at h; exact Except.noConfusion h
  | tstr => rw [hs] at h; exact Except.noConfusion h

/-- Whether procLine succeeds depends only on the line, not on the dict
accumulated so far. -/
theorem procLine_isOk_indep (md : Dict) (l : List Char) :
    (procLine md l).isOk = (procLine [] l).isOk := by
  unfold procLine
  cases hr : rsplitColon l with
  | none => rfl
  | some kv =>
    obtain ⟨k0, v0⟩ := kv
    exact coerceKV_isOk_indep md _ _

/-- The error value of a failing procLine likewise depends only on the
line. -/
theorem procLine_error_indep (md : Dict) (l : List Char) (e : Err) :
    procLine md l = .error e ↔ procLine [] l = .error e := by
  unfold procLine
  cases hr : rsplitColon l with
  | none => simp
  | some kv =>
    obtain ⟨k0, v0⟩ := kv
    exact coerceKV_error_indep md _ _ e

/-- A failing procLine fails with one of the two coercion ValueError shapes,
which carry no file name. -/
theorem errFile_of_procLine_error (md : Dict) (l : List Char) (e : Err)
    (h : procLine md l = .error e) : errFile e = none := by
  unfold procLine at h
  cases hr : rsplitColon l with
  | none => rw [hr] at h; exact Except.noConfusion h
  | some kv =>
    obtain ⟨k0, v0⟩ := kv
    rw [hr] at h
    exact errFile_of_coerceKV_error md _ _ e h

/-- Processing a block of lines that all succeed threads some dict through
to the remaining lines. -/
theorem processLines_append_ok (pre L : List (List Char)) (md : Dict)
    (hpre : ∀ l ∈ pre, (procLine [] l).isOk = true) :
    ∃ md', processLines (pre ++ L) md = processLines L md' := by
  induction pre generalizing md with
  | nil => exact ⟨md, rfl⟩
  | cons l pre' ih =>
    have hl : (procLine md l).isOk = true := by
      rw [procLine_isOk_indep]
      exact hpre l (List.mem_cons_self l pre')
    obtain ⟨md2, hmd2⟩ : ∃ md2, procLine md l = .ok md2 := by
      cases hpl : procLine md l with
      | ok m => exact ⟨m, rfl⟩
      | error e => rw [hpl] at hl; exact absurd hl (by simp [Except.isOk, Except.toBool])
    obtain ⟨md', hmd'⟩ := ih md2 (fun x hx => hpre x (List.mem_cons_of_mem l hx))
    refine ⟨md', ?_⟩
    rw [List.cons_append]
    simp only [processLines, hmd2]
    exact hmd'

/-- C6, amended: when the first offending header line has a schema-typed
value that cannot be coerced (after any number of well-formed lines), header
parsing fails, but with the uncaught builtin ValueError of int() or float(),
which names only the raw value: no file name (and no key) is attached to the
surfaced error, unlike the OVF2Error failures of the reader. -/
theorem claim6_amended (fn content : List Char) (s e : Nat)
    (pre rest : List (List Char)) (line : List Char) (err : Err)
    (hs : findSub content HEADER_BEGIN_MARKER = some s)
    (he : findSub content HEADER_END_MARKER = some e)
    (hsplit : splitlines ((content.take e).drop (s + HEADER_BEGIN_MARKER.length)) =
      pre ++ line :: rest)
    (hpre : ∀ l ∈ pre, (procLine [] l).isOk = true)
    (hline : procLine [] line = .error err) :
    extract_metadata fn content = .error err ∧ errFile err = none := by
  constructor
  · simp only [extract_metadata, hs, he, hsplit]
    obtain ⟨md', hmd'⟩ := processLines_append_ok pre (line :: rest) [] hpre
    rw [hmd']
    have hline' : procLine md' line = .error err :=
      (procLine_error_indep md' line err).mpr hline
    simp only [processLines, hline']
  · exact errFile_of_procLine_error [] line err hline

/-- Closed witness for claim6_amended at the bad-int fixture: one sound
Title line followed by an xnodes line whose value abc is not an int. -/
theorem claim6_witness :
    extract_metadata fnFix badIntFixture = .error (.intParseError ("abc".toList)) ∧
    errFile (.intParseError ("abc".toList)) = none :=
  claim6_amended fnFix badIntFixture 0 41 [("# Title: t").toList] []
    (("# xnodes: abc").toList) (.intParseError ("abc".toList))
    (by decide) (by decide) (by decide)
    (by decide) (by decide)

/-- C6, counterexample: the claim says the coercion failure names the file,
the key, and the raw value; on the bad-int fixture the surfaced exception is
the builtin ValueError of int(), which carries only the raw literal abc, and
its modelled file attribute is none: neither the file nor the key is part of
the error. -/
theorem claim6_counterexample :
    extract_metadata (("some/deep/file.ovf").toList) badIntFixture =
      .error (.intParseError ("abc".toList)) ∧
    errFile (.intParseError ("abc".toList)) = none := by
  exact ⟨by decide, by decide⟩

/-- A read whose first line and header parse reduce to the validated
dispatch. -/
theorem read_reduces (fn content : List Char) (md : Dict) (x y z : Int)
    (h1 : OVF2_FIRST_LINE.isPrefixOf (content.take HEADER_READ_BYTES) = true)
    (h2 : extract_metadata fn (content.take HEADER_READ_BYTES) = .ok md)
    (h3 : validateMeta fn md = .ok (x, y, z)) :
    read_ovf2 fn content = dispatchMode fn content md x y z := by
  simp only [read_ovf2, h1, if_true, h2, h3]

/-- A read that fails schema validation surfaces that error. -/
theorem read_reduces_validate_error (fn content : List Char) (md : Dict) (e : Err)
    (h1 : OVF2_FIRST_LINE.isPrefixOf (content.take HEADER_READ_BYTES) = true)
    (h2 : extract_metadata fn (content.take HEADER_READ_BYTES) = .ok md)
    (h3 : validateMeta fn md = .error e) :
    read_ovf2 fn content = .error e := by
  simp only [read_ovf2, h1, if_true, h2, h3]

/-- C7, amended: read_ovf2 compares the meshtype after ASCII lowercasing, so
the requirement is lowercase(meshtype) == rectangular (the amendment: any
capitalisation of rectangular is accepted, not only the exact lowercase
string); any other lowercased value fails with the unsupported-mesh error
naming the file and the value found, and with an accepted meshtype any
valuedim other than the int 3 fails with the unsupported-valuedim error
naming the file and the value found. -/
theorem claim7_amended (fn content : List Char) (md : Dict)
    (h1 : OVF2_FIRST_LINE.isPrefixOf (content.take HEADER_READ_BYTES) = true)
    (h2 : extract_metadata fn (content.take HEADER_READ_BYTES) = .ok md) :
    (asciiLower (meshValueOf md) ≠ ("rectangular").toList →
      read_ovf2 fn content = .error (.unsupportedMeshType fn (meshValueOf md))) ∧
    (asciiLower (meshValueOf md) = ("rectangular").toList →
      dlookup md (("valuedim").toList) ≠ some (.i 3) →
      read_ovf2 fn content =
        .error (.unsupportedValuedim fn (dlookup md (("valuedim").toList)))) := by
  constructor
  · intro hm
    apply read_reduces_validate_error fn content md _ h1 h2
    simp only [validateMeta, if_pos hm]
  · intro hm hvd
    apply read_reduces_validate_error fn content md _ h1 h2
    simp only [validateMeta]
    rw [if_neg (by simp [hm]), if_pos hvd]

/-- Closed witness for claim7_amended: a header whose meshtype is cubic is
rejected with the unsupported-mesh-type error naming the value cubic. -/
theorem claim7_witness :
    read_ovf2 fnFix cubicMeshFixture =
      .error (.unsupportedMeshType fnFix (("cubic").toList)) :=
  (claim7_amended fnFix cubicMeshFixture [(("meshtype").toList, .s ("cubic").toList)]
    (by decide) (by decide)).1 (by decide)

/-- C7, counterexample: the claim reads that any meshtype value other than
the string rectangular is a fatal unsupported-schema error, but the fixture
whose meshtype is Rectangular (capital R, a value different from the exact
string rectangular) passes validation and read_ovf2 succeeds. -/
theorem claim7_counterexample :
    extract_metadata fnFix (capitalMeshFixture.take HEADER_READ_BYTES) =
      .ok capitalMeshHdr ∧
    meshValueOf capitalMeshHdr = ("Rectangular").toList ∧
    (("Rectangular").toList ≠ ("rectangular").toList) ∧
    (read_ovf2 fnFix capitalMeshFixture).isOk = true := by
  refine ⟨by decide, by decide, by decide, ?_⟩
  rfl

/-- The binary tail never raises a flag mismatch: its failures are the
memmap and reshape errors. -/
theorem binTail_no_flagMismatch (fn2 content : List Char) (md : Dict) (x y z : Int)
    (offset w : Nat) (f a b : List Char) :
    binTail fn2 content md x y z offset w ≠ .error (.flagMismatch f a b) := by
  unfold binTail
  cases memmapChunks content w offset (3 * (x * y * z)) with
  | none => simp
  | some flat =>
    cases hro : reorder_xyz (flat.map Sample.bin) x.toNat y.toNat z.toNat with
    | none => simp [hro]
    | some mag => simp [hro]

/-- C8: confirmed.  For a file that reaches the mode dispatch with mode
Binary 4 (resp. Binary 8), read_ovf2 fails with the FlagMismatch error
carrying the expected sentinel BINARY4_FLAG (the little-endian binary32
encoding of 1234567.0; resp. BINARY8_FLAG, the little-endian binary64
encoding of 123456789012345.0) and the observed bytes, exactly when the 4
(resp. 8) bytes at the payload start differ from that sentinel; when they
match, the read proceeds with the binary tail that memmaps the values
immediately after the sentinel, at byte offset payload start + 4 (resp.
+ 8). -/
theorem claim8_binary_flag (fn content : List Char) (md : Dict) (x y z : Int)
    (mode : List Char) (pstart : Nat)
    (h1 : OVF2_FIRST_LINE.isPrefixOf (content.take HEADER_READ_BYTES) = true)
    (h2 : extract_metadata fn (content.take HEADER_READ_BYTES) = .ok md)
    (h3 : validateMeta fn md = .ok (x, y, z))
    (h4 : dataMarkerInfo (content.take HEADER_READ_BYTES) = (mode, pstart)) :
    (mode = ("Binary 4").toList →
      ∀ flag, flag = ((content.take HEADER_READ_BYTES).take (pstart + 4)).drop pstart →
        (read_ovf2 fn content = .error (.flagMismatch fn BINARY4_FLAG flag) ↔
          flag ≠ BINARY4_FLAG) ∧
        (flag = BINARY4_FLAG →
          read_ovf2 fn content = binTail fn content md x y z (pstart + 4) 4)) ∧
    (mode = ("Binary 8").toList →
      ∀ flag, flag = ((content.take HEADER_READ_BYTES).take (pstart + 8)).drop pstart →
        (read_ovf2 fn content = .error (.flagMismatch fn BINARY8_FLAG flag) ↔
          flag ≠ BINARY8_FLAG) ∧
        (flag = BINARY8_FLAG →
          read_ovf2 fn content = binTail fn content md x y z (pstart + 8) 8)) := by
  have hread := read_reduces fn content md x y z h1 h2 h3
  constructor
  · intro hmode flag hflag
    have hdisp : read_ovf2 fn content =
        if flag = BINARY4_FLAG then binTail fn content md x y z (pstart + 4) 4
        else .error (.flagMismatch fn BINARY4_FLAG flag) := by
      rw [hread]
      simp only [dispatchMode, h4, hmode, ← hflag]
      simp
    refine ⟨⟨?_, ?_⟩, ?_⟩
    · intro h
      by_cases hf : flag = BINARY4_FLAG
      · rw [hdisp, if_pos hf] at h
        exact absurd h (binTail_no_flagMismatch fn content md x y z (pstart + 4) 4 _ _ _)
      · exact hf
    · intro hf
      rw [hdisp, if_neg hf]
    · intro hf
      rw [hdisp, if_pos hf]
  · intro hmode flag hflag
    have hne : mode ≠ ("Binary 4").toList := by
      rw [hmode]
      decide
    have hdisp : read_ovf2 fn content =
        if flag = BINARY8_FLAG then binTail fn content md x y z (pstart + 8) 8
        else .error (.flagMismatch fn BINARY8_FLAG flag) := by
      rw [hread]
      simp only [dispatchMode, h4, hmode, ← hflag]
      simp
    refine ⟨⟨?_, ?_⟩, ?_⟩
    · intro h
      by_cases hf : flag = BINARY8_FLAG
      · rw [hdisp, if_pos hf] at h
        exact absurd h (binTail_no_flagMismatch fn content md x y z (pstart + 8) 8 _ _ _)
      · exact hf
    · intro hf
      rw [hdisp, if_neg hf]
    · intro hf
      rw [hdisp, if_pos hf]

/-- Closed witness for claim8_binary_flag: the bad-flag fixture carries XXXX
at the payload start of its Binary 4 block and read_ovf2 reports the
mismatch with the expected sentinel and the observed bytes. -/
theorem claim8_witness :
    read_ovf2 fnFix badFlagFixture =
      .error (.flagMismatch fnFix BINARY4_FLAG (("XXXX").toList)) :=
  ((claim8_binary_flag fnFix badFlagFixture badFlagHdr 1 1 1 (("Binary 4").toList) 143
      (by decide) (by decide) (by decide) (by decide)).1 rfl
    (("XXXX").toList) (by decide)).1.mpr (by decide)

/-- A frame check fails exactly when some schema key witnesses an
inconsistency. -/
theorem checkFrame_ne_ok_iff (fp p : List Char) (fh h : Dict) :
    checkFrame fp fh p h ≠ .ok () ↔
      ∃ k ∈ HEADER_DTYPES.map Prod.fst, violatesAt fh h k = true := by
  cases hf : (HEADER_DTYPES.map Prod.fst).find? (violatesAt fh h) with
  | some k =>
    simp only [checkFrame, hf]
    constructor
    · intro _
      exact ⟨k, List.mem_of_find?_eq_some hf, List.find?_some hf⟩
    · intro _ hco
      exact Except.noConfusion hco
  | none =>
    have hnone := List.find?_eq_none.mp hf
    simp only [checkFrame, hf]
    constructor
    · intro hco
      exact absurd rfl hco
    · intro ⟨k, hkmem, hkv⟩ _
      exact hnone k hkmem hkv

/-- The loop over subsequent frames fails exactly when some frame fails its
check against the baseline. -/
theorem buildRest_error_iff (fp : List Char) (fh : Dict) (rest : List FrameInput) :
    (∃ e, buildRest fp fh rest = .error e) ↔
      ∃ f ∈ rest, checkFrame fp fh f.path f.hdr ≠ .ok () := by
  induction rest with
  | nil => simp [buildRest]
  | cons f rest ih =>
    cases hc : checkFrame fp fh f.path f.hdr with
    | error e =>
      simp only [buildRest, hc]
      constructor
      · intro _
        refine ⟨f, List.mem_cons_self f rest, ?_⟩
        rw [hc]
        intro hk
        exact Except.noConfusion hk
      · intro _
        exact ⟨e, rfl⟩
    | ok u =>
      cases u
      simp only [buildRest, hc]
      cases hb : buildRest fp fh rest with
      | error e2 =>
        simp only []
        constructor
        · intro _
          obtain ⟨g, hg, hgne⟩ := ih.mp ⟨e2, hb⟩
          exact ⟨g, List.mem_cons_of_mem f hg, hgne⟩
        · intro _
          exact ⟨e2, rfl⟩
      | ok ts =>
        simp only []
        constructor
        · intro ⟨e, he⟩
          exact Except.noConfusion he
        · intro ⟨g, hg, hgne⟩
          exfalso
          cases List.mem_cons.mp hg with
          | inl heq =>
            subst heq
            exact hgne hc
          | inr hmem =>
            obtain ⟨e, he⟩ := ih.mpr ⟨g, hmem, hgne⟩
            rw [hb] at he
            exact Except.noConfusion he

/-- C9: confirmed.  The per-frame consistency check of the aggregator passes
iff no schema-known key present in both the baseline header and the frame
header carries different values; a schema key violates exactly when it is
present in both headers with differing values, so keys absent from the frame
header are never compared; a failing check raises InconsistentMetadata
naming the key, the two values, and the two file paths; and the whole build
over f0 and its subsequent frames aborts with an error iff some subsequent
frame has such a violating key against frame 0. -/
theorem claim9_inconsistent_metadata (f0 : FrameInput) (rest : List FrameInput)
    (fp p : List Char) (fh h : Dict) :
    (checkFrame fp fh p h = .ok () ↔
      ∀ k ∈ HEADER_DTYPES.map Prod.fst, violatesAt fh h k = false) ∧
    (∀ k, violatesAt fh h k = true ↔
      ∃ v0 v, dlookup fh k = some v0 ∧ dlookup h k = some v ∧ v ≠ v0) ∧
    (∀ e, checkFrame fp fh p h = .error e →
      ∃ k, violatesAt fh h k = true ∧
        e = .inconsistentMetadata k (dlookup h k) p (dlookup fh k) fp) ∧
    ((∃ e, build_h5_from_ovfs (f0 :: rest) = .error e) ↔
      ∃ f ∈ rest, ∃ k ∈ HEADER_DTYPES.map Prod.fst, violatesAt f0.hdr f.hdr k = true) := by
  refine ⟨?_, ?_, ?_, ?_⟩
  · cases hf : (HEADER_DTYPES.map Prod.fst).find? (violatesAt fh h) with
    | some k =>
      simp only [checkFrame, hf]
      constructor
      · intro hco
        exact Except.noConfusion hco
      · intro hall
        exact absurd (hall k (List.mem_of_find?_eq_some hf)) (by simp [List.find?_some hf])
    | none =>
      have hnone := List.find?_eq_none.mp hf
      simp only [checkFrame, hf]
      constructor
      · intro _ k hkmem
        cases hb : violatesAt fh h k with
        | false => rfl
        | true => exact absurd hb (hnone k hkmem)
      · intro _
        trivial
  · intro k
    unfold violatesAt
    cases h0 : dlookup fh k with
    | none =>
      simp
    | some v0 =>
      cases h1 : dlookup h k with
      | none => simp
      | some v =>
        simp only [decide_eq_true_eq]
        constructor
        · intro hne
          exact ⟨v0, v, rfl, rfl, hne⟩
        · intro ⟨v0', v', he0, he1, hne⟩
          cases he0
          cases he1
          exact hne
  · intro e he
    cases hf : (HEADER_DTYPES.map Prod.fst).find? (violatesAt fh h) with
    | some k =>
      simp only [checkFrame, hf] at he
      injection he with he2
      exact ⟨k, List.find?_some hf, he2.symm⟩
    | none =>
      simp only [checkFrame, hf] at he
      exact Except.noConfusion he
  · have hbuild : (∃ e, build_h5_from_ovfs (f0 :: rest) = .error e) ↔
        (∃ e, buildRest f0.path f0.hdr rest = .error e) := by
      cases hb : buildRest f0.path f0.hdr rest with
      | error e => simp [build_h5_from_ovfs, hb]
      | ok ts => simp [build_h5_from_ovfs, hb]
    rw [hbuild, buildRest_error_iff]
    exact exists_congr fun f =>
      and_congr_right fun _ => checkFrame_ne_ok_iff f0.path f.path f0.hdr f.hdr

/-- Closed witness for claim9_inconsistent_metadata: two frames disagreeing
on xnodes (100 versus 50) make the build abort. -/
theorem claim9_witness :
    ∃ e, build_h5_from_ovfs [incFrame0, incFrame1] = .error e :=
  (claim9_inconsistent_metadata incFrame0 [incFrame1] incFrame0.path incFrame1.path
      incFrame0.hdr incFrame1.hdr).2.2.2.mpr
    ⟨incFrame1, by decide, (("xnodes").toList), by decide, by decide⟩

/-- Length of a flattened range-map of constant-length blocks. -/
theorem flatten_range_len (g : Nat → List α) (k : Nat) (hk : ∀ i, (g i).length = k)
    (n : Nat) : (((List.range n).map g).flatten).length = n * k := by
  induction n with
  | zero => simp
  | succ n ih =>
    rw [List.range_succ, List.map_append, List.flatten_append]
    simp [ih, hk n, Nat.succ_mul]

/-- Element i*k+j of a flattened range-map of constant-length-k blocks is
element j of block i. -/
theorem flatten_range_get (g : Nat → List α) (k : Nat) (hk : ∀ i, (g i).length = k)
    (n i j : Nat) (hi : i < n) (hj : j < k) :
    (((List.range n).map g).flatten).get? (i * k + j) = (g i).get? j := by
  induction n with
  | zero => omega
  | succ n ih =>
    rw [List.range_succ, List.map_append, List.flatten_append]
    by_cases hin : i < n
    · rw [List.get?_append]
      · exact ih hin
      · rw [flatten_range_len g k hk n]
        have h1 : i * k + j < (i + 1) * k := by
          rw [Nat.succ_mul]
          omega
        have h2 : (i + 1) * k ≤ n * k := Nat.mul_le_mul_right k hin
        omega
    · have hieq : i = n := by omega
      subst hieq
      have hlen : (((List.range i).map g).flatten).length = i * k :=
        flatten_range_len g k hk i
      rw [List.get?_append_right (by rw [hlen]; omega)]
      rw [hlen]
      have hsub : i * k + j - i * k = j := by omega
      rw [hsub]
      simp

/-- C2: confirmed.  A flat sequence emitted x fastest, then y, then z (each
sample a 3-vector) is accepted by reorder_xyz, which returns the view whose
element at (x, y, z, c) is component c of the original sample at lattice
point (x, y, z). -/
theorem claim2_reorder_round_trip (X Y Z x y z c : Nat) (f : Nat → Nat → Nat → Nat → ℚ)
    (hx : x < X) (hy : y < Y) (hz : z < Z) (hc : c < 3) :
    ∃ arr, reorder_xyz (emitOrder X Y Z f) X Y Z = some arr ∧
      arr x y z c = some (f x y z c) := by
  have hinner : ∀ z' y' : Nat,
      (((List.range X).map
        (fun x' => [f x' y' z' 0, f x' y' z' 1, f x' y' z' 2])).flatten).length = X * 3 :=
    fun z' y' =>
      flatten_range_len (fun x' => [f x' y' z' 0, f x' y' z' 1, f x' y' z' 2]) 3
        (fun _ => rfl) X
  have hmid : ∀ z' : Nat,
      (((List.range Y).map (fun y' =>
        ((List.range X).map
          (fun x' => [f x' y' z' 0, f x' y' z' 1, f x' y' z' 2])).flatten)).flatten).length =
        Y * (X * 3) :=
    fun z' => flatten_range_len _ (X * 3) (fun i => hinner z' i) Y
  have hlen : (emitOrder X Y Z f).length = Z * (Y * (X * 3)) := by
    unfold emitOrder
    exact flatten_range_len _ (Y * (X * 3)) hmid Z
  have hlen' : (emitOrder X Y Z f).length = Z * Y * X * 3 := by
    rw [hlen]
    ring
  have hre : reorder_xyz (emitOrder X Y Z f) X Y Z =
      some (transpose2103 (reshape4 (emitOrder X Y Z f) Z Y X 3)) := by
    unfold reorder_xyz
    rw [if_pos hlen']
  refine ⟨_, hre, ?_⟩
  unfold transpose2103 reshape4
  have hidx : ((z * Y + y) * X + x) * 3 + c =
      z * (Y * (X * 3)) + (y * (X * 3) + (x * 3 + c)) := by ring
  rw [hidx]
  have hj2 : x * 3 + c < X * 3 := by omega
  have hj1 : y * (X * 3) + (x * 3 + c) < Y * (X * 3) := by
    calc y * (X * 3) + (x * 3 + c) < y * (X * 3) + X * 3 := Nat.add_lt_add_left hj2 _
      _ = (y + 1) * (X * 3) := by ring
      _ ≤ Y * (X * 3) := Nat.mul_le_mul_right (X * 3) (Nat.succ_le_of_lt hy)
  unfold emitOrder
  rw [flatten_range_get _ (Y * (X * 3)) hmid Z z (y * (X * 3) + (x * 3 + c)) hz hj1]
  rw [flatten_range_get _ (X * 3) (fun i => hinner z i) Y y (x * 3 + c) hy hj2]
  rw [flatten_range_get (fun x' => [f x' y z 0, f x' y z 1, f x' y z 2]) 3
    (fun _ => rfl) X x c hx hc]
  interval_cases c <;> rfl

/-- Closed witness for claim2_reorder_round_trip on a 2x1x1 lattice at
lattice point (1, 0, 0), component 2. -/
theorem claim2_witness :
    ∃ arr, reorder_xyz
        (emitOrder 2 1 1 (fun a b c2 d => mkRat ((((a * 10 + b) * 10 + c2) * 10 + d : Nat) : Int) 1))
        2 1 1 = some arr ∧
      arr 1 0 0 2 = some (mkRat 1002 1) :=
  claim2_reorder_round_trip 2 1 1 1 0 0 2
    (fun a b c2 d => mkRat ((((a * 10 + b) * 10 + c2) * 10 + d : Nat) : Int) 1)
    (by decide) (by decide) (by decide) (by decide)

end Mumax













